import Mathlib

/-!
Verification development for the boulumy repository (src/maiin.py and
src/database.py): a Telegram bot with a per-user sliding-window rate
limiter, a TTL-bounded subscription cache, an exact-then-prefix city
resolver, and a sequential broadcast engine with per-recipient failure
isolation over a relational store.

Modelling conventions:
- Wall-clock instants (Python time.time floats) are modelled as integers;
  every property proved only uses ordered-ring reasoning, so nothing
  depends on the discretization.
- The in-memory per-user dictionaries are modelled as total functions
  from the Telegram user id to the stored value (a missing key is the
  default value, matching the lazy initialisation in the source).
- Database tables are lists of rows in storage order; SQL UPDATE is a map
  over the rows, INSERT ... SELECT an append of the selected rows, and a
  query with LIMIT but no ORDER BY takes rows in storage order (the
  behaviour of both backends here).  Timestamp and profile columns that
  no modelled operation reads are omitted.
- Outbound Telegram calls are modelled by their outcome: a delivery
  attempt is success, TelegramForbiddenError, or any other exception; the
  get_chat_member call either returns a member status string or raises
  (the none case).
-/

namespace Boulumy

/-! ### Anti-spam constants (maiin.py lines 82-85, 132) -/

def RATE_LIMIT_THRESHOLD : Nat := 5

def RATE_LIMIT_WINDOW : Int := 10

def MESSAGE_COOLDOWN : Int := 2

def SUBSCRIPTION_CACHE_TTL : Int := 300

/-! ### Rate limiter (maiin.py, check_rate_limit, lines 126-170)

The three module-level dictionaries user_message_counts,
last_message_times and blocked_users form the mutable state; the handler
check_rate_limit reads and writes them and returns a Bool. -/

/-- The mutable anti-spam state: per-user recent message timestamps,
per-user last admitted instant, and the sticky spam block set
(maiin.py lines 126-128). -/
structure RateState where
  user_message_counts : Int → List Int
  last_message_times : Int → Option Int
  blocked_users : List Int

/-- The initial anti-spam state: empty dictionaries and an empty block
set. -/
def freshRate : RateState :=
  { user_message_counts := fun _ => []
    last_message_times := fun _ => none
    blocked_users := [] }

/-- Pruning of the timestamp list to the sliding window (maiin.py lines
150-153): keep the timestamps strictly younger than RATE_LIMIT_WINDOW. -/
def pruneWindow (current_time : Int) (l : List Int) : List Int :=
  l.filter (fun msg_time => current_time - msg_time < RATE_LIMIT_WINDOW)

/-- Tail of check_rate_limit after the cooldown gate (maiin.py lines
160-170): if the pruned window already holds RATE_LIMIT_THRESHOLD
timestamps the user joins the sticky block set and the call is rejected;
otherwise the instant is appended and recorded as the last message time. -/
def rate_block_or_append (s1 : RateState) (user_id : Int) (current_time : Int)
    (pruned : List Int) : Bool × RateState :=
  if RATE_LIMIT_THRESHOLD ≤ pruned.length then
    (false, { s1 with blocked_users := user_id :: s1.blocked_users })
  else
    (true,
      { s1 with
        user_message_counts :=
          Function.update s1.user_message_counts user_id (pruned ++ [current_time])
        last_message_times :=
          Function.update s1.last_message_times user_id (some current_time) })

/-- check_rate_limit (maiin.py lines 138-170).  Sticky-block gate first;
then the stored list is pruned in place; then the 2-second cooldown gate
rejects without recording; then the threshold / append step. -/
def check_rate_limit (s : RateState) (user_id : Int) (current_time : Int) :
    Bool × RateState :=
  if user_id ∈ s.blocked_users then (false, s)
  else
    let pruned := pruneWindow current_time (s.user_message_counts user_id)
    let s1 : RateState :=
      { s with user_message_counts :=
          Function.update s.user_message_counts user_id pruned }
    match s.last_message_times user_id with
    | some last =>
      if current_time - last < MESSAGE_COOLDOWN then (false, s1)
      else rate_block_or_append s1 user_id current_time pruned
    | none => rate_block_or_append s1 user_id current_time pruned

/-- A sequence of check_rate_limit calls by one user at the given
instants, returning the list of verdicts and the final state. -/
def runCalls (s : RateState) (user_id : Int) : List Int → List Bool × RateState
  | [] => ([], s)
  | t :: ts =>
    let r := check_rate_limit s user_id t
    let rest := runCalls r.2 user_id ts
    (r.1 :: rest.1, rest.2)

/-- Boolean cooldown test on a state: true when no last admitted instant
is recorded for the user, or when at least MESSAGE_COOLDOWN has elapsed
since it. -/
def cooldownOver (s : RateState) (user_id current_time : Int) : Bool :=
  (s.last_message_times user_id).all
    (fun last => decide (MESSAGE_COOLDOWN ≤ current_time - last))

/-! ### Subscription cache (maiin.py, check_subscription_cached, lines
130-132 and 188-209) -/

/-- The member statuses treated as subscribed (maiin.py line 201). -/
def SUBSCRIPTION_STATUSES : List String := ["member", "administrator", "creator"]

/-- Result of one check_subscription_cached call: the returned Bool, the
subscription_cache dictionary afterwards, and whether the external
get_chat_member call was made. -/
structure SubResult where
  is_subscribed : Bool
  cache : Int → Option (Bool × Int)
  api_called : Bool

/-- The API branch of check_subscription_cached (maiin.py lines
198-209): on a successful get_chat_member the membership Bool is cached
with the current instant and returned; on any exception the call returns
false and writes nothing. -/
def check_subscription_api (cache : Int → Option (Bool × Int))
    (user_id current_time : Int) (get_chat_member : Option String) : SubResult :=
  match get_chat_member with
  | some status =>
    let is_subscribed := SUBSCRIPTION_STATUSES.contains status
    { is_subscribed := is_subscribed
      cache := Function.update cache user_id (some (is_subscribed, current_time))
      api_called := true }
  | none => { is_subscribed := false, cache := cache, api_called := true }

/-- check_subscription_cached (maiin.py lines 188-209): a cache entry
younger than SUBSCRIPTION_CACHE_TTL is returned as is without any
external call; otherwise the API branch runs. -/
def check_subscription_cached (cache : Int → Option (Bool × Int))
    (user_id current_time : Int) (get_chat_member : Option String) : SubResult :=
  match cache user_id with
  | some (is_subscribed, timestamp) =>
    if current_time - timestamp < SUBSCRIPTION_CACHE_TTL then
      { is_subscribed := is_subscribed, cache := cache, api_called := false }
    else check_subscription_api cache user_id current_time get_chat_member
  | none => check_subscription_api cache user_id current_time get_chat_member

/-- Boolean staleness test: true when the cache holds no entry for the
user, or the entry is at least SUBSCRIPTION_CACHE_TTL old. -/
def cacheStale (cache : Int → Option (Bool × Int)) (user_id current_time : Int) : Bool :=
  match cache user_id with
  | none => true
  | some (_, timestamp) => decide (SUBSCRIPTION_CACHE_TTL ≤ current_time - timestamp)

/-! ### Database model (src/database.py)

The tables the modelled operations touch, as lists of rows in storage
order.  Only the columns those operations read or write are kept; the
timestamp, language and profile columns never influence them. -/

/-- A row of the users table (database.py lines 73-86): the internal id,
the Telegram id, and the two activity flags. -/
structure UserRow where
  id : Int
  tg_id : Int
  is_active : Bool
  is_blocked : Bool
  deriving DecidableEq

/-- A row of the unsubscriptions table (database.py lines 179-186): the
internal user id and the recorded reason. -/
structure UnsubRow where
  user_id : Int
  reason : String
  deriving DecidableEq

/-- A row of the cities table (database.py lines 104-111). -/
structure CityRow where
  code : String
  name_uk : String
  channel_url : Option String
  is_active : Bool
  deriving DecidableEq

/-- A row of the city_aliases table (database.py lines 114-119). -/
structure AliasRow where
  city_code : String
  alias_ : String
  deriving DecidableEq

/-- The slice of the relational store the modelled operations use. -/
structure DB where
  users : List UserRow
  unsubscriptions : List UnsubRow
  cities : List CityRow
  city_aliases : List AliasRow
  deriving DecidableEq

/-- Database.set_user_blocked (database.py lines 402-436): one repository
operation that updates is_blocked AND is_active = not is_blocked on the
row with the given Telegram id, and, when blocking, inserts an
unsubscriptions row for that user; on PostgreSQL the two statements run
in one transaction, on SQLite under one commit, so the model applies
them as a single state transition. -/
def set_user_blocked (db : DB) (tg_id : Int) (is_blocked : Bool)
    (reason : String) : DB :=
  let users1 := db.users.map (fun u =>
    if u.tg_id = tg_id then
      { u with is_blocked := is_blocked, is_active := !is_blocked }
    else u)
  { db with
    users := users1
    unsubscriptions :=
      if is_blocked then
        db.unsubscriptions ++
          (users1.filter (fun u => u.tg_id = tg_id)).map
            (fun u => { user_id := u.id, reason := reason })
      else db.unsubscriptions }

/-- Database.get_all_users (database.py lines 453-464): the Telegram ids
of all rows with is_active and not is_blocked, in storage order.  (The
Python dict literal repeats the key user_id, so each returned record
carries only the tg_id; the broadcast loop sends to that value.) -/
def get_all_users (db : DB) : List Int :=
  (db.users.filter (fun u => u.is_active && !u.is_blocked)).map (fun u => u.tg_id)

/-! ### City resolution (database.py lines 467-523, maiin.py lines
173-182)

SQL lower() is modelled character-wise, LIKE x || percent as a string
prefix test, and Python str.strip as trimming whitespace at both ends.
All three are written structurally over the character list so concrete
instances evaluate inside the kernel. -/

/-- SQL lower(): character-wise lowercasing. -/
def lower (s : String) : String := ⟨s.data.map Char.toLower⟩

/-- Python str.strip(): drop whitespace from both ends. -/
def strip (s : String) : String :=
  ⟨((s.data.dropWhile Char.isWhitespace).reverse.dropWhile Char.isWhitespace).reverse⟩

/-- The join of city_aliases with cities on city_code (the FROM/JOIN
clause shared by both lookup queries), in alias storage order; code is
the primary key of cities, so each alias joins at most one row. -/
def aliasJoin (db : DB) : List (AliasRow × CityRow) :=
  db.city_aliases.filterMap (fun a =>
    (db.cities.find? (fun c => c.code == a.city_code)).map (fun c => (a, c)))

/-- Database.find_city_by_alias (database.py lines 467-493): the first
joined row whose alias matches the stripped input case-insensitively and
whose city is active (LIMIT 1 with no ORDER BY: storage order). -/
def find_city_by_alias (db : DB) (user_input : String) : Option CityRow :=
  (((aliasJoin db).filter (fun p =>
      lower p.1.alias_ == lower (strip user_input) && p.2.is_active)).head?).map
    (fun p => p.2)

/-- The rows the prefix query matches before ordering: active cities one
of whose aliases starts, case-insensitively, with the stripped input. -/
def prefixMatches (db : DB) (pre : String) : List (AliasRow × CityRow) :=
  (aliasJoin db).filter (fun p =>
    (lower (strip pre)).data.isPrefixOf (lower p.1.alias_).data && p.2.is_active)

/-- The ORDER BY length(alias) ASC comparison of the prefix query. -/
def aliasLenLE (p q : AliasRow × CityRow) : Prop :=
  p.1.alias_.length ≤ q.1.alias_.length

instance : DecidableRel aliasLenLE :=
  fun p q => inferInstanceAs (Decidable (p.1.alias_.length ≤ q.1.alias_.length))

instance : IsTotal (AliasRow × CityRow) aliasLenLE where
  total p q := by
    simp only [aliasLenLE]
    exact Nat.le_total _ _

instance : IsTrans (AliasRow × CityRow) aliasLenLE where
  trans p q r h h2 := by
    simp only [aliasLenLE] at h h2 ⊢
    omega

/-- Database.find_cities_by_prefix (database.py lines 495-523): the
prefix matches ordered by alias length ascending (a stable sort: ties
keep storage order), truncated to the LIMIT. -/
def find_cities_by_prefix (db : DB) (pre : String) (limit : Nat) : List CityRow :=
  (((prefixMatches db pre).insertionSort aliasLenLE).take limit).map (fun p => p.2)

/-- find_city (maiin.py lines 173-182): the exact alias lookup first,
and only when it yields nothing the prefix lookup with limit 1, taking
its first row if any. -/
def find_city (db : DB) (city_input : String) : Option CityRow :=
  match find_city_by_alias db city_input with
  | some city => some city
  | none =>
    match find_cities_by_prefix db city_input 1 with
    | [] => none
    | city :: _ => some city

/-! ### Broadcast engine and admin gate (maiin.py lines 434-450 and
638-715)

A delivery attempt to one recipient is classified by the exception it
raises, exactly as the try/except of process_broadcast does. -/

/-- Outcome of one send_message / send_photo call: it returns, it raises
TelegramForbiddenError, or it raises any other exception. -/
inductive DeliveryOutcome
  | success
  | forbidden
  | failure
  deriving DecidableEq

/-- The loop state of process_broadcast: the three counters, the store
(mutated by set_user_blocked on forbidden deliveries), and the
recipients attempted so far in order. -/
structure LoopAcc where
  sent : Nat
  failed : Nat
  blocked : Nat
  db : DB
  attempted : List Int

/-- One iteration of the broadcast loop (maiin.py lines 670-691):
success bumps sent; TelegramForbiddenError bumps blocked and calls
set_user_blocked(user_id, True, reason blocked); any other exception
bumps failed and the loop continues. -/
def deliver_one (outcome : Int → DeliveryOutcome) (acc : LoopAcc)
    (user_id : Int) : LoopAcc :=
  match outcome user_id with
  | .success =>
    { acc with sent := acc.sent + 1, attempted := acc.attempted ++ [user_id] }
  | .forbidden =>
    { acc with blocked := acc.blocked + 1
               db := set_user_blocked acc.db user_id true ("blocked")
               attempted := acc.attempted ++ [user_id] }
  | .failure =>
    { acc with failed := acc.failed + 1, attempted := acc.attempted ++ [user_id] }

/-- The sequential broadcast loop over the recipient snapshot. -/
def broadcast_loop (outcome : Int → DeliveryOutcome) :
    List Int → LoopAcc → LoopAcc
  | [], acc => acc
  | user_id :: rest, acc =>
    broadcast_loop outcome rest (deliver_one outcome acc user_id)

/-- The success ratio of the terminal report (maiin.py line 712):
sent / (sent + failed + blocked) * 100. -/
def success_ratio (r : LoopAcc) : ℚ :=
  (r.sent : ℚ) / ((r.sent : ℚ) + (r.failed : ℚ) + (r.blocked : ℚ)) * 100

/-- The zeroed counters at the start of a run (maiin.py lines 666-668). -/
def initAcc (db : DB) : LoopAcc :=
  { sent := 0, failed := 0, blocked := 0, db := db, attempted := [] }

/-- Per-user FSM states (maiin.py lines 88-92); idle stands for a
cleared state. -/
inductive BotState
  | idle
  | waiting_for_city
  | waiting_for_broadcast_message
  | waiting_for_rental_form
  | admin_menu
  deriving DecidableEq

/-- What a process_broadcast invocation did: silently ignored a
non-admin sender, replied that there are no recipients and cleared the
state, or finished a run with the final counters and the success ratio
sent / (sent + failed + blocked) * 100 of the terminal report. -/
inductive PBOutput
  | ignored
  | no_users
  | finished (r : LoopAcc) (success_ratio : ℚ)

/-- process_broadcast (maiin.py lines 638-715), as a function of the
configured ADMIN_ID, the sender id, the sender's FSM state, the store
snapshot and the per-recipient delivery outcomes.  A non-admin sender is
a silent no-op; an empty recipient list answers an error and clears the
state before any delivery or ratio computation; otherwise every
recipient is attempted and the terminal report computed. -/
def process_broadcast (admin_id sender_id : Int) (fsm : BotState) (db : DB)
    (outcome : Int → DeliveryOutcome) : PBOutput × BotState × DB :=
  if sender_id ≠ admin_id then (PBOutput.ignored, fsm, db)
  else
    let users := get_all_users db
    match users with
    | [] => (PBOutput.no_users, BotState.idle, db)
    | _ :: _ =>
      let r := broadcast_loop outcome users (initAcc db)
      (PBOutput.finished r (success_ratio r), BotState.idle, r.db)

/-- True exactly on the terminal-report outcome of process_broadcast. -/
def isReport : PBOutput → Bool
  | .finished _ _ => true
  | _ => false

/-- The sent / failed / blocked counters of a terminal report, if one
was produced. -/
def reportCounts : PBOutput → Option (Nat × Nat × Nat)
  | .finished r _ => some (r.sent, r.failed, r.blocked)
  | _ => none

/-- cmd_admin (maiin.py lines 434-450): result of the /admin handler.
The reply text is abstracted to the two branches the handler has; the
admin-panel statistics text only reads the store. -/
structure CmdAdminOut where
  reply : String
  fsm : BotState
  db : DB

/-- cmd_admin (maiin.py lines 434-450): a sender other than ADMIN_ID
gets the rejection reply and the handler returns before the FSM
transition; the admin gets the panel and the FSM moves to admin_menu. -/
def cmd_admin (admin_id sender_id : Int) (fsm : BotState) (db : DB) : CmdAdminOut :=
  if sender_id ≠ admin_id then
    { reply := ("rejected: command not recognized"), fsm := fsm, db := db }
  else
    { reply := ("admin panel"), fsm := BotState.admin_menu, db := db }

/-! ### Concrete fixtures used by witnesses and counterexamples -/

/-- A rate-limiter state with four admitted instants 0, 2, 4, 6 inside
the window for user 7, the last at 6. -/
def rateFour : RateState :=
  { user_message_counts := fun u => if u = 7 then [0, 2, 4, 6] else []
    last_message_times := fun u => if u = 7 then some 6 else none
    blocked_users := [] }

/-- A rate-limiter state whose pruned window for user 7 at instant 10
holds five instants with the cooldown elapsed. -/
def rateFive : RateState :=
  { user_message_counts := fun u => if u = 7 then [3, 4, 5, 6, 7] else []
    last_message_times := fun u => if u = 7 then some 7 else none
    blocked_users := [] }

/-- A subscription cache holding (true, written at instant 100) for user
7 and nothing else. -/
def subCacheAt100 : Int → Option (Bool × Int) :=
  fun u => if u = 7 then some (true, 100) else none

/-- Store with three active, unblocked users A (tg 101), B (tg 102) and
C (tg 103). -/
def dbABC : DB :=
  { users :=
      [ { id := 1, tg_id := 101, is_active := true, is_blocked := false }
      , { id := 2, tg_id := 102, is_active := true, is_blocked := false }
      , { id := 3, tg_id := 103, is_active := true, is_blocked := false } ]
    unsubscriptions := []
    cities := []
    city_aliases := [] }

/-- Delivery outcomes where only B (tg 102) has blocked the bot. -/
def outcomeOnlyB : Int → DeliveryOutcome :=
  fun user_id => if user_id = 102 then DeliveryOutcome.forbidden else DeliveryOutcome.success

/-- A store with no user rows at all: the recipient snapshot is empty. -/
def dbEmpty : DB :=
  { users := [], unsubscriptions := [], cities := [], city_aliases := [] }

/-- Reference city fixture: the city of Kyiv with its exact alias kyiv. -/
def cityKyiv : CityRow :=
  { code := ("kyiv"), name_uk := ("Kyiv"), channel_url := some ("url-kyiv"), is_active := true }

/-- A second active city holding the longer alias kyianske, which also
starts with the letters kyi. -/
def cityKy : CityRow :=
  { code := ("kyx"), name_uk := ("KyOther"), channel_url := some ("url-kyx"), is_active := true }

/-- City store where the longer alias (for the other city) is stored
before the alias kyiv, so only the length ordering, not storage order,
puts kyiv first among prefix candidates for the input kyi. -/
def dbCities : DB :=
  { users := [], unsubscriptions := []
    cities := [cityKy, cityKyiv]
    city_aliases :=
      [ { city_code := ("kyx"), alias_ := ("kyianske") }
      , { city_code := ("kyiv"), alias_ := ("kyiv") } ] }

/-! ### Rate limiter lemmas -/

/-- A user in the sticky block set is rejected and the state is left
untouched. -/
theorem check_rate_limit_of_blocked {s : RateState} {u : Int}
    (h : u ∈ s.blocked_users) (t : Int) : check_rate_limit s u t = (false, s) := by
  simp [check_rate_limit, h]

/-- Every call of a sticky-blocked user is rejected and the state never
changes, whatever the instants. -/
theorem runCalls_of_blocked {s : RateState} {u : Int} (h : u ∈ s.blocked_users)
    (ts : List Int) :
    (runCalls s u ts).1 = List.replicate ts.length false ∧ (runCalls s u ts).2 = s := by
  induction ts with
  | nil => simp [runCalls]
  | cons t ts ih => simp [runCalls, check_rate_limit_of_blocked h, ih, List.replicate_succ]

/-- Characterisation of a cooldown rejection: the call returns false and
the only state change is the in-place pruning of the stored window. -/
theorem check_rate_limit_cooldown {s : RateState} {u t last : Int}
    (hb : u ∉ s.blocked_users) (hl : s.last_message_times u = some last)
    (hc : t - last < MESSAGE_COOLDOWN) :
    check_rate_limit s u t =
      (false,
        { s with user_message_counts :=
            (Function.update s.user_message_counts u
              (pruneWindow t (s.user_message_counts u))) }) := by
  simp [check_rate_limit, hb, hl, hc]

/-- Characterisation of a threshold rejection: with the cooldown over
and the pruned window full, the call returns false, prunes the stored
window, and adds the user to the sticky block set. -/
theorem check_rate_limit_threshold {s : RateState} {u t : Int}
    (hb : u ∉ s.blocked_users) (hcool : cooldownOver s u t = true)
    (hth : RATE_LIMIT_THRESHOLD ≤ (pruneWindow t (s.user_message_counts u)).length) :
    check_rate_limit s u t =
      (false,
        { s with
          user_message_counts :=
            (Function.update s.user_message_counts u
              (pruneWindow t (s.user_message_counts u)))
          blocked_users := u :: s.blocked_users }) := by
  cases hl : s.last_message_times u with
  | some last =>
    have hc : ¬ (t - last < MESSAGE_COOLDOWN) := by
      have h2 := hcool
      unfold cooldownOver at h2
      rw [hl] at h2
      simp only [Option.all_some, decide_eq_true_eq] at h2
      omega
    simp [check_rate_limit, rate_block_or_append, hb, hl, hc, hth]
  | none =>
    simp [check_rate_limit, rate_block_or_append, hb, hl, hth]

/-- Characterisation of an admitted call: the window is pruned, the
instant appended, the last message time set, and the block set left
alone. -/
theorem check_rate_limit_records {s : RateState} {u t : Int}
    (hb : u ∉ s.blocked_users) (hcool : cooldownOver s u t = true)
    (hth : (pruneWindow t (s.user_message_counts u)).length < RATE_LIMIT_THRESHOLD) :
    check_rate_limit s u t =
      (true,
        { s with
          user_message_counts :=
            (Function.update s.user_message_counts u
              (pruneWindow t (s.user_message_counts u) ++ [t]))
          last_message_times :=
            (Function.update s.last_message_times u (some t)) }) := by
  have hth2 : ¬ RATE_LIMIT_THRESHOLD ≤ (pruneWindow t (s.user_message_counts u)).length := by
    omega
  cases hl : s.last_message_times u with
  | some last =>
    have hc : ¬ (t - last < MESSAGE_COOLDOWN) := by
      have h2 := hcool
      unfold cooldownOver at h2
      rw [hl] at h2
      simp only [Option.all_some, decide_eq_true_eq] at h2
      omega
    simp [check_rate_limit, rate_block_or_append, hb, hl, hc, hth2, Function.update_idem]
  | none =>
    simp [check_rate_limit, rate_block_or_append, hb, hl, hth2, Function.update_idem]

/-- Inversion of an admitted call: the user was not blocked, the window
was pruned and the instant appended, the last message time was set, and
the block set did not change. -/
theorem check_rate_limit_true {s : RateState} {u t : Int}
    (h : (check_rate_limit s u t).1 = true) :
    u ∉ s.blocked_users ∧
    (check_rate_limit s u t).2.user_message_counts =
      Function.update s.user_message_counts u
        (pruneWindow t (s.user_message_counts u) ++ [t]) ∧
    (check_rate_limit s u t).2.last_message_times =
      Function.update s.last_message_times u (some t) ∧
    (check_rate_limit s u t).2.blocked_users = s.blocked_users := by
  by_cases hb : u ∈ s.blocked_users
  · rw [check_rate_limit_of_blocked hb] at h
    exact absurd h (by simp)
  · by_cases hcool : cooldownOver s u t = true
    · by_cases hth :
          RATE_LIMIT_THRESHOLD ≤ (pruneWindow t (s.user_message_counts u)).length
      · rw [check_rate_limit_threshold hb hcool hth] at h
        exact absurd h (by simp)
      · have hlt : (pruneWindow t (s.user_message_counts u)).length < RATE_LIMIT_THRESHOLD := by
          omega
        rw [check_rate_limit_records hb hcool hlt]
        exact ⟨hb, rfl, rfl, rfl⟩
    · unfold cooldownOver at hcool
      cases hl : s.last_message_times u with
      | none =>
        rw [hl] at hcool
        simp at hcool
      | some last =>
        rw [hl] at hcool
        simp only [Option.all_some, decide_eq_true_eq] at hcool
        have hc : t - last < MESSAGE_COOLDOWN := by omega
        rw [check_rate_limit_cooldown hb hl hc] at h
        exact absurd h (by simp)

/-! ### Claim C1 -/

/-- C1 counterexample: in a state whose pruned window for user 7 records
4 admitted events within the 10-second window (instants 0, 2, 4, 6, the
fifth event arriving at instant 8), check_rate_limit ADMITS the fifth
event and does not add the user to the sticky block set, contradicting
the claim that the fifth event within the window is rejected. -/
theorem C1_counterexample :
    (check_rate_limit rateFour 7 8).1 = true ∧
    7 ∉ (check_rate_limit rateFour 7 8).2.blocked_users := by decide

/-- C1 (amended): the rejection-with-sticky-block fires when the pruned
window has already reached the threshold of 5 recorded events (so it is
the 6th event of a window that is rejected, not the 5th): for every
state in which the user is not yet blocked, the cooldown has elapsed and
the pruned window holds at least RATE_LIMIT_THRESHOLD events, the call
returns false, the user joins the sticky block set, and every subsequent
call for that user returns false with no further state change until an
explicit administrative reset empties the set. -/
theorem C1_rate_limit_sticky_block (s : RateState) (u t : Int)
    (hb : u ∉ s.blocked_users)
    (hcool : cooldownOver s u t = true)
    (hth : RATE_LIMIT_THRESHOLD ≤ (pruneWindow t (s.user_message_counts u)).length) :
    (check_rate_limit s u t).1 = false ∧
    u ∈ (check_rate_limit s u t).2.blocked_users ∧
    ∀ ts : List Int,
      (runCalls (check_rate_limit s u t).2 u ts).1 = List.replicate ts.length false ∧
      (runCalls (check_rate_limit s u t).2 u ts).2 = (check_rate_limit s u t).2 := by
  rw [check_rate_limit_threshold hb hcool hth]
  exact ⟨rfl, List.mem_cons_self u s.blocked_users,
    fun ts => runCalls_of_blocked (List.mem_cons_self u s.blocked_users) ts⟩

/-- C1 witness: the amended theorem applied to a state whose pruned
window for user 7 at instant 10 holds five events with the cooldown
elapsed. -/
theorem C1_rate_limit_sticky_block_witness :
    (check_rate_limit rateFive 7 10).1 = false ∧
    7 ∈ (check_rate_limit rateFive 7 10).2.blocked_users ∧
    ∀ ts : List Int,
      (runCalls (check_rate_limit rateFive 7 10).2 7 ts).1 = List.replicate ts.length false ∧
      (runCalls (check_rate_limit rateFive 7 10).2 7 ts).2 = (check_rate_limit rateFive 7 10).2 :=
  C1_rate_limit_sticky_block rateFive 7 10 (by decide) (by decide) (by decide)

/-! ### Claim C6 -/

/-- C6: when two events from the same user arrive less than
MESSAGE_COOLDOWN apart and the first is admitted, the second is rejected
and leaves no record: the last message time still holds the first
instant, the stored window gains no timestamp (it is at most pruned),
and the block set is unchanged. -/
theorem C6_cooldown_silent_drop (s : RateState) (u t1 t2 : Int)
    (h1 : (check_rate_limit s u t1).1 = true)
    (h2 : t2 - t1 < MESSAGE_COOLDOWN) :
    (check_rate_limit (check_rate_limit s u t1).2 u t2).1 = false ∧
    (check_rate_limit (check_rate_limit s u t1).2 u t2).2.last_message_times u = some t1 ∧
    (∀ x ∈ (check_rate_limit (check_rate_limit s u t1).2 u t2).2.user_message_counts u,
      x ∈ (check_rate_limit s u t1).2.user_message_counts u) ∧
    (check_rate_limit (check_rate_limit s u t1).2 u t2).2.blocked_users =
      (check_rate_limit s u t1).2.blocked_users := by
  obtain ⟨hb, hcounts, hlast, hblocked⟩ := check_rate_limit_true h1
  have hb1 : u ∉ (check_rate_limit s u t1).2.blocked_users := by
    rw [hblocked]; exact hb
  have hl1 : (check_rate_limit s u t1).2.last_message_times u = some t1 := by
    rw [hlast]; simp
  rw [check_rate_limit_cooldown hb1 hl1 h2]
  refine ⟨rfl, hl1, ?_, rfl⟩
  intro x hx
  simp only [Function.update_same, pruneWindow] at hx
  exact List.mem_of_mem_filter hx

/-- C6 witness: from the fresh state, user 7 is admitted at instant 0
and silently rejected at instant 1. -/
theorem C6_cooldown_silent_drop_witness :
    (check_rate_limit (check_rate_limit freshRate 7 0).2 7 1).1 = false ∧
    (check_rate_limit (check_rate_limit freshRate 7 0).2 7 1).2.last_message_times 7 = some 0 ∧
    (∀ x ∈ (check_rate_limit (check_rate_limit freshRate 7 0).2 7 1).2.user_message_counts 7,
      x ∈ (check_rate_limit freshRate 7 0).2.user_message_counts 7) ∧
    (check_rate_limit (check_rate_limit freshRate 7 0).2 7 1).2.blocked_users =
      (check_rate_limit freshRate 7 0).2.blocked_users :=
  C6_cooldown_silent_drop freshRate 7 0 1 (by decide) (by decide)

/-! ### Subscription cache lemmas -/

/-- The API branch always registers that the external call was made,
whether it returned or raised. -/
theorem check_subscription_api_called (cache : Int → Option (Bool × Int))
    (u now : Int) (chk : Option String) :
    (check_subscription_api cache u now chk).api_called = true := by
  cases chk <;> rfl

/-- On a missing or stale entry check_subscription_cached is the API
branch. -/
theorem check_subscription_stale (cache : Int → Option (Bool × Int))
    (u now : Int) (h : cacheStale cache u now = true) (chk : Option String) :
    check_subscription_cached cache u now chk =
      check_subscription_api cache u now chk := by
  unfold check_subscription_cached
  unfold cacheStale at h
  cases hc : cache u with
  | none => rfl
  | some e =>
    obtain ⟨b, ts⟩ := e
    rw [hc] at h
    simp only [decide_eq_true_eq] at h
    simp only []
    rw [if_neg (by omega)]

/-- Staleness is monotone in time. -/
theorem cacheStale_mono (cache : Int → Option (Bool × Int)) (u now now2 : Int)
    (h : cacheStale cache u now = true) (hle : now ≤ now2) :
    cacheStale cache u now2 = true := by
  unfold cacheStale at h ⊢
  cases hc : cache u with
  | none => rfl
  | some e =>
    obtain ⟨b, ts⟩ := e
    rw [hc] at h
    simp only [decide_eq_true_eq] at h ⊢
    omega

/-! ### Claim C7 -/

/-- C7: with a cache entry (b, T) for the user, a call strictly before
T + SUBSCRIPTION_CACHE_TTL returns the cached boolean, leaves the cache
unchanged and never invokes the external membership check, while a call
at or after T + SUBSCRIPTION_CACHE_TTL invokes a fresh external check. -/
theorem C7_subscription_cache_ttl (cache : Int → Option (Bool × Int))
    (u now T : Int) (b : Bool) (chk : Option String)
    (h : cache u = some (b, T)) :
    (now - T < SUBSCRIPTION_CACHE_TTL →
      check_subscription_cached cache u now chk =
        { is_subscribed := b, cache := cache, api_called := false }) ∧
    (SUBSCRIPTION_CACHE_TTL ≤ now - T →
      (check_subscription_cached cache u now chk).api_called = true) := by
  constructor
  · intro hf
    unfold check_subscription_cached
    rw [h]
    simp only []
    rw [if_pos hf]
  · intro hs
    have hstale : cacheStale cache u now = true := by
      unfold cacheStale
      rw [h]
      simp only [decide_eq_true_eq]
      omega
    rw [check_subscription_stale cache u now hstale chk]
    exact check_subscription_api_called cache u now chk

/-- C7 witness: the theorem applied to the cache holding (true, 100) for
user 7, once inside the TTL at instant 399 and once outside at 400. -/
theorem C7_subscription_cache_ttl_witness :
    (check_subscription_cached subCacheAt100 7 399 (some ("member")) =
      { is_subscribed := true, cache := subCacheAt100, api_called := false }) ∧
    (check_subscription_cached subCacheAt100 7 400 (some ("member"))).api_called = true :=
  ⟨(C7_subscription_cache_ttl subCacheAt100 7 399 100 true (some ("member"))
      (by decide)).1 (by decide),
   (C7_subscription_cache_ttl subCacheAt100 7 400 100 true (some ("member"))
      (by decide)).2 (by decide)⟩

/-! ### Claim C8 -/

/-- C8: when the entry is missing or stale the external check runs; if
it raises, the call returns false and writes nothing to the cache, so
any later call (same or later instant, any outcome) invokes the external
check again; if it returns a status, the membership boolean is computed
from it, cached together with the current instant, and returned. -/
theorem C8_fail_closed_no_pinning (cache : Int → Option (Bool × Int))
    (u now : Int) (chk : Option String)
    (h : cacheStale cache u now = true) :
    (chk = none →
      check_subscription_cached cache u now chk =
        { is_subscribed := false, cache := cache, api_called := true } ∧
      ∀ now2 chk2, now ≤ now2 →
        (check_subscription_cached cache u now2 chk2).api_called = true) ∧
    (∀ status, chk = some status →
      (check_subscription_cached cache u now chk).is_subscribed =
        SUBSCRIPTION_STATUSES.contains status ∧
      (check_subscription_cached cache u now chk).cache u =
        some (SUBSCRIPTION_STATUSES.contains status, now) ∧
      (check_subscription_cached cache u now chk).api_called = true) := by
  constructor
  · intro hnone
    subst hnone
    constructor
    · rw [check_subscription_stale cache u now h none]
      rfl
    · intro now2 chk2 hle
      rw [check_subscription_stale cache u now2 (cacheStale_mono cache u now now2 h hle) chk2]
      exact check_subscription_api_called cache u now2 chk2
  · intro status hsome
    subst hsome
    rw [check_subscription_stale cache u now h (some status)]
    refine ⟨rfl, ?_, rfl⟩
    show (Function.update cache u (some (SUBSCRIPTION_STATUSES.contains status, now))) u =
      some (SUBSCRIPTION_STATUSES.contains status, now)
    rw [Function.update_same]

/-- C8 witness: the theorem applied to the empty cache for user 7 at
instant 0, with the external check raising, and then with the external
check returning the status member. -/
theorem C8_fail_closed_no_pinning_witness :
    (check_subscription_cached (fun _ => none) 7 0 none =
      { is_subscribed := false, cache := (fun _ => none), api_called := true } ∧
      ∀ now2 chk2, (0 : Int) ≤ now2 →
        (check_subscription_cached (fun _ => none) 7 now2 chk2).api_called = true) ∧
    ((check_subscription_cached (fun _ => none) 7 0 (some ("member"))).is_subscribed =
        SUBSCRIPTION_STATUSES.contains ("member") ∧
      (check_subscription_cached (fun _ => none) 7 0 (some ("member"))).cache 7 =
        some (SUBSCRIPTION_STATUSES.contains ("member"), 0) ∧
      (check_subscription_cached (fun _ => none) 7 0 (some ("member"))).api_called = true) :=
  ⟨(C8_fail_closed_no_pinning (fun _ => none) 7 0 none (by decide)).1 rfl,
   (C8_fail_closed_no_pinning (fun _ => none) 7 0 (some ("member")) (by decide)).2
     ("member") rfl⟩

/-! ### Broadcast loop lemmas -/

/-- Counting behaviour of the broadcast loop: every recipient is
attempted in order and each counter counts exactly its outcome class. -/
theorem broadcast_loop_spec (outcome : Int → DeliveryOutcome) (users : List Int)
    (acc : LoopAcc) :
    (broadcast_loop outcome users acc).sent =
      acc.sent + users.countP (fun x => outcome x == DeliveryOutcome.success) ∧
    (broadcast_loop outcome users acc).failed =
      acc.failed + users.countP (fun x => outcome x == DeliveryOutcome.failure) ∧
    (broadcast_loop outcome users acc).blocked =
      acc.blocked + users.countP (fun x => outcome x == DeliveryOutcome.forbidden) ∧
    (broadcast_loop outcome users acc).attempted = acc.attempted ++ users := by
  induction users generalizing acc with
  | nil => simp [broadcast_loop]
  | cons x xs ih =>
    have hstep : broadcast_loop outcome (x :: xs) acc =
        broadcast_loop outcome xs (deliver_one outcome acc x) := rfl
    obtain ⟨h1, h2, h3, h4⟩ := ih (deliver_one outcome acc x)
    rw [hstep, h1, h2, h3, h4]
    refine ⟨?_, ?_, ?_, ?_⟩ <;>
      cases ho : outcome x <;>
        simp [deliver_one, ho, List.countP_cons] <;>
          omega

/-- The three outcome classes partition the recipient list. -/
theorem countP_outcomes (outcome : Int → DeliveryOutcome) (users : List Int) :
    users.countP (fun x => outcome x == DeliveryOutcome.success) +
    users.countP (fun x => outcome x == DeliveryOutcome.failure) +
    users.countP (fun x => outcome x == DeliveryOutcome.forbidden) = users.length := by
  induction users with
  | nil => rfl
  | cons x xs ih =>
    cases ho : outcome x <;> simp [List.countP_cons, ho] <;> omega

/-- For the admin sender and a non-empty recipient snapshot,
process_broadcast runs the loop from the zeroed counters and reports. -/
theorem process_broadcast_nonempty (admin_id : Int) (fsm : BotState) (db : DB)
    (outcome : Int → DeliveryOutcome) (h : get_all_users db ≠ []) :
    process_broadcast admin_id admin_id fsm db outcome =
      (PBOutput.finished
        (broadcast_loop outcome (get_all_users db) (initAcc db))
        (success_ratio (broadcast_loop outcome (get_all_users db) (initAcc db))),
       BotState.idle,
       (broadcast_loop outcome (get_all_users db) (initAcc db)).db) := by
  unfold process_broadcast
  rw [if_neg (by simp)]
  cases hu : get_all_users db with
  | nil => exact absurd hu h
  | cons a as => rfl

/-! ### Claim C2 -/

/-- C2: broadcasting to the snapshot A (tg 101), B (tg 102), C (tg 103)
where only the delivery to B raises TelegramForbiddenError ends with
sent = 2, failed = 0, blocked = 1; as a side effect of the single
set_user_blocked repository operation, B's user row has is_blocked true
(and is deactivated) while A and C are untouched, and one unsubscription
row for B's internal id was inserted. -/
theorem C2_broadcast_forbidden_side_effects :
    reportCounts
      (process_broadcast 999 999 BotState.waiting_for_broadcast_message dbABC outcomeOnlyB).1
      = some (2, 0, 1) ∧
    ((process_broadcast 999 999 BotState.waiting_for_broadcast_message dbABC outcomeOnlyB).2.2.users.map
        (fun u => (u.tg_id, u.is_blocked, u.is_active)))
      = [(101, false, true), (102, true, false), (103, false, true)] ∧
    (process_broadcast 999 999 BotState.waiting_for_broadcast_message dbABC outcomeOnlyB).2.2.unsubscriptions
      = [{ user_id := 2, reason := ("blocked") }] := by
  refine ⟨?_, ?_, ?_⟩ <;> rfl

/-! ### Claim C3 -/

/-- C3 counterexample: with an empty recipient snapshot,
process_broadcast does NOT produce a terminal report at all (so no
report with success ratio 0): it answers that there are no recipients
and clears the state before the ratio formula is ever reached, and the
source has no guard on the denominator sent + failed + blocked. -/
theorem C3_counterexample :
    isReport
      (process_broadcast 999 999 BotState.waiting_for_broadcast_message dbEmpty
        (fun _ => DeliveryOutcome.success)).1 = false := by
  rfl

/-- C3 (amended): with an empty recipient snapshot the run stops with
the no-recipients reply, a cleared state and an untouched store, and no
terminal report (hence no division) is produced; for a non-empty
snapshot a terminal report is produced and its denominator
sent + failed + blocked equals the number of recipients, which is
positive, so the ratio divides by a nonzero number without any explicit
guard in the source. -/
theorem C3_empty_broadcast_no_report (admin_id : Int) (fsm : BotState) (db : DB)
    (outcome : Int → DeliveryOutcome) :
    (get_all_users db = [] →
      process_broadcast admin_id admin_id fsm db outcome =
        (PBOutput.no_users, BotState.idle, db)) ∧
    (get_all_users db ≠ [] →
      ∃ r ratio,
        process_broadcast admin_id admin_id fsm db outcome =
          (PBOutput.finished r ratio, BotState.idle, r.db) ∧
        r.sent + r.failed + r.blocked = (get_all_users db).length ∧
        0 < r.sent + r.failed + r.blocked) := by
  constructor
  · intro h0
    unfold process_broadcast
    rw [if_neg (by simp)]
    simp only [h0]
  · intro hne
    have hrun := process_broadcast_nonempty admin_id fsm db outcome hne
    obtain ⟨h1, h2, h3, _⟩ :=
      broadcast_loop_spec outcome (get_all_users db) (initAcc db)
    have hsum := countP_outcomes outcome (get_all_users db)
    have hlen : 0 < (get_all_users db).length := List.length_pos.mpr hne
    rw [show (initAcc db).sent = 0 from rfl] at h1
    rw [show (initAcc db).failed = 0 from rfl] at h2
    rw [show (initAcc db).blocked = 0 from rfl] at h3
    refine ⟨_, _, hrun, by omega, by omega⟩

/-- C3 witness: both branches of the amended theorem at concrete inputs,
the empty-snapshot branch on the store with no users and the non-empty
branch on the three-user store. -/
theorem C3_empty_broadcast_no_report_witness :
    (process_broadcast 999 999 BotState.waiting_for_broadcast_message dbEmpty
        (fun _ => DeliveryOutcome.success) =
      (PBOutput.no_users, BotState.idle, dbEmpty)) ∧
    (∃ r ratio,
      process_broadcast 999 999 BotState.waiting_for_broadcast_message dbABC
          (fun _ => DeliveryOutcome.success) =
        (PBOutput.finished r ratio, BotState.idle, r.db) ∧
      r.sent + r.failed + r.blocked = (get_all_users dbABC).length ∧
      0 < r.sent + r.failed + r.blocked) :=
  ⟨(C3_empty_broadcast_no_report 999 BotState.waiting_for_broadcast_message dbEmpty
      (fun _ => DeliveryOutcome.success)).1 rfl,
   (C3_empty_broadcast_no_report 999 BotState.waiting_for_broadcast_message dbABC
      (fun _ => DeliveryOutcome.success)).2 (by decide)⟩

/-! ### Claim C4 -/

/-- C4: for every non-empty recipient snapshot and every pattern of
per-recipient outcomes, the run attempts delivery to every recipient in
the snapshot order, each outcome class increments exactly its counter
(in particular a non-forbidden error increments failed and the loop
continues to the end), and at completion sent + blocked + failed equals
the number of recipients. -/
theorem C4_partial_failure_tolerance (admin_id : Int) (fsm : BotState) (db : DB)
    (outcome : Int → DeliveryOutcome) (h : get_all_users db ≠ []) :
    ∃ r ratio,
      process_broadcast admin_id admin_id fsm db outcome =
        (PBOutput.finished r ratio, BotState.idle, r.db) ∧
      r.attempted = get_all_users db ∧
      r.sent = (get_all_users db).countP (fun x => outcome x == DeliveryOutcome.success) ∧
      r.failed = (get_all_users db).countP (fun x => outcome x == DeliveryOutcome.failure) ∧
      r.blocked = (get_all_users db).countP (fun x => outcome x == DeliveryOutcome.forbidden) ∧
      r.sent + r.blocked + r.failed = (get_all_users db).length := by
  have hrun := process_broadcast_nonempty admin_id fsm db outcome h
  obtain ⟨h1, h2, h3, h4⟩ :=
    broadcast_loop_spec outcome (get_all_users db) (initAcc db)
  have hsum := countP_outcomes outcome (get_all_users db)
  rw [show (initAcc db).sent = 0 from rfl] at h1
  rw [show (initAcc db).failed = 0 from rfl] at h2
  rw [show (initAcc db).blocked = 0 from rfl] at h3
  rw [show (initAcc db).attempted = [] from rfl] at h4
  refine ⟨_, _, hrun, by simpa using h4, by simpa using h1, by simpa using h2,
    by simpa using h3, by omega⟩

/-- C4 witness: the theorem applied to the three-user store with A
succeeding, B forbidden and C failing with a generic error. -/
theorem C4_partial_failure_tolerance_witness :
    ∃ r ratio,
      process_broadcast 999 999 BotState.waiting_for_broadcast_message dbABC
          (fun user_id => if user_id = 102 then DeliveryOutcome.forbidden
            else if user_id = 103 then DeliveryOutcome.failure
            else DeliveryOutcome.success) =
        (PBOutput.finished r ratio, BotState.idle, r.db) ∧
      r.attempted = get_all_users dbABC ∧
      r.sent = (get_all_users dbABC).countP (fun x =>
        (if x = 102 then DeliveryOutcome.forbidden
          else if x = 103 then DeliveryOutcome.failure
          else DeliveryOutcome.success) == DeliveryOutcome.success) ∧
      r.failed = (get_all_users dbABC).countP (fun x =>
        (if x = 102 then DeliveryOutcome.forbidden
          else if x = 103 then DeliveryOutcome.failure
          else DeliveryOutcome.success) == DeliveryOutcome.failure) ∧
      r.blocked = (get_all_users dbABC).countP (fun x =>
        (if x = 102 then DeliveryOutcome.forbidden
          else if x = 103 then DeliveryOutcome.failure
          else DeliveryOutcome.success) == DeliveryOutcome.forbidden) ∧
      r.sent + r.blocked + r.failed = (get_all_users dbABC).length :=
  C4_partial_failure_tolerance 999 BotState.waiting_for_broadcast_message dbABC
    (fun user_id => if user_id = 102 then DeliveryOutcome.forbidden
      else if user_id = 103 then DeliveryOutcome.failure
      else DeliveryOutcome.success) (by decide)

/-! ### Claim C5 -/

/-- C5: resolution order of find_city.  If the exact case-insensitive
alias lookup succeeds it is returned and the prefix lookup is never
consulted (so an exact match wins over any prefix candidate, however
short that candidate's alias); the returned city then has an active
exact matching alias.  Only when the exact lookup yields nothing does
find_city fall back to the head of the prefix lookup with limit 1; every
city emitted by the prefix lookup carries an active case-insensitive
prefix-matching alias, and the emitted list is the prefix matches
ordered by alias length ascending (stably, so storage order breaks
ties), truncated to the limit. -/
theorem C5_city_resolution_order (db : DB) (input : String) (limit : Nat) :
    (∀ c, find_city_by_alias db input = some c → find_city db input = some c) ∧
    (find_city_by_alias db input = none →
      find_city db input = ( find_cities_by_prefix db input 1).head?) ∧
    (∀ c, find_city_by_alias db input = some c →
      ∃ p ∈ aliasJoin db, p.2 = c ∧
        lower p.1.alias_ = lower (strip input) ∧ c.is_active = true) ∧
    (∀ c ∈ find_cities_by_prefix db input limit,
      ∃ p ∈ aliasJoin db, p.2 = c ∧
        (lower (strip input)).data.isPrefixOf (lower p.1.alias_).data = true ∧
        c.is_active = true) ∧
    List.Sorted aliasLenLE ((prefixMatches db input).insertionSort aliasLenLE) ∧
    find_cities_by_prefix db input limit =
      (((prefixMatches db input).insertionSort aliasLenLE).take limit).map
        (fun p => p.2) := by
  refine ⟨?_, ?_, ?_, ?_, ?_, rfl⟩
  · intro c hc
    unfold find_city
    rw [hc]
  · intro h0
    unfold find_city
    rw [h0]
    cases hl : find_cities_by_prefix db input 1 <;> rfl
  · intro c hc
    unfold find_city_by_alias at hc
    cases hf : ((aliasJoin db).filter (fun p =>
        lower p.1.alias_ == lower (strip input) && p.2.is_active)).head? with
    | none =>
      rw [hf] at hc
      exact absurd hc (by simp)
    | some p =>
      rw [hf] at hc
      have hpc : p.2 = c := by simpa using hc
      have hp : p ∈ (aliasJoin db).filter (fun p =>
          lower p.1.alias_ == lower (strip input) && p.2.is_active) :=
        List.mem_of_mem_head? (by simp [hf])
      obtain ⟨hmem, hcond⟩ := List.mem_filter.mp hp
      simp only [Bool.and_eq_true, beq_iff_eq] at hcond
      refine ⟨p, hmem, hpc, hcond.1, ?_⟩
      rw [← hpc]
      exact hcond.2
  · intro c hc
    unfold find_cities_by_prefix at hc
    obtain ⟨p, hp, hpc⟩ := List.mem_map.mp hc
    have hp2 : p ∈ (prefixMatches db input).insertionSort aliasLenLE :=
      List.take_subset limit _ hp
    have hp3 : p ∈ prefixMatches db input :=
      (List.perm_insertionSort aliasLenLE _).subset hp2
    unfold prefixMatches at hp3
    obtain ⟨hmem, hcond⟩ := List.mem_filter.mp hp3
    simp only [Bool.and_eq_true] at hcond
    refine ⟨p, hmem, hpc, hcond.1, ?_⟩
    rw [← hpc]
    exact hcond.2
  · exact List.sorted_insertionSort aliasLenLE (prefixMatches db input)

/-- C5 witness: the input kyiv has an exact alias and resolves to the
exact match; the input kyi has no exact alias, so find_city equals the
head of the prefix lookup, which by the length-ascending order is the
city of the 4-letter alias kyiv and not of the 8-letter alias kyianske
stored before it. -/
theorem C5_city_resolution_order_witness :
    find_city dbCities ("kyiv") = some cityKyiv ∧
    find_city dbCities ("kyi") = ( find_cities_by_prefix dbCities ("kyi") 1).head? ∧
    ( find_cities_by_prefix dbCities ("kyi") 1).head? = some cityKyiv :=
  ⟨(C5_city_resolution_order dbCities ("kyiv") 1).1 cityKyiv (by decide),
   (C5_city_resolution_order dbCities ("kyi") 1).2.1 (by decide), by decide⟩

/-! ### Claim C9 -/

/-- C9: a sender other than the configured administrator gets the
rejection reply from cmd_admin with the FSM state and the store exactly
as before (the handler returns before the admin_menu transition and
performs no repository write), and process_broadcast treats any such
sender as a silent no-op: no reply, no delivery, no FSM or store
change. -/
theorem C9_admin_gate (admin_id sender_id : Int) (fsm : BotState) (db : DB)
    (outcome : Int → DeliveryOutcome) (h : sender_id ≠ admin_id) :
    cmd_admin admin_id sender_id fsm db =
      { reply := ("rejected: command not recognized"), fsm := fsm, db := db } ∧
    process_broadcast admin_id sender_id fsm db outcome =
      (PBOutput.ignored, fsm, db) := by
  constructor
  · unfold cmd_admin
    rw [if_pos h]
  · unfold process_broadcast
    rw [if_pos h]

/-- C9 witness: the theorem applied to sender 1 against administrator
999, in the broadcast-composition state over the three-user store. -/
theorem C9_admin_gate_witness :
    cmd_admin 999 1 BotState.waiting_for_broadcast_message dbABC =
      { reply := ("rejected: command not recognized")
        fsm := BotState.waiting_for_broadcast_message, db := dbABC } ∧
    process_broadcast 999 1 BotState.waiting_for_broadcast_message dbABC
        (fun _ => DeliveryOutcome.success) =
      (PBOutput.ignored, BotState.waiting_for_broadcast_message, dbABC) :=
  C9_admin_gate 999 1 BotState.waiting_for_broadcast_message dbABC
    (fun _ => DeliveryOutcome.success) (by decide)

/-! ### Claim C10 -/

/-- C10: set_user_blocked always couples the two flags in its single
update: on the row carrying the given Telegram id it sets is_blocked to
the argument AND is_active to its negation (blocking deactivates, an
explicit unblock reactivates), every other row is untouched, and when
blocking, the user's Telegram id is absent from every recipient snapshot
taken from the resulting store. -/
theorem C10_block_deactivates (db : DB) (tg : Int) (b : Bool) (reason : String) :
    (∀ u ∈ (set_user_blocked db tg b reason).users,
      u.tg_id = tg → u.is_blocked = b ∧ u.is_active = !b) ∧
    (∀ u ∈ (set_user_blocked db tg b reason).users,
      u.tg_id ≠ tg → u ∈ db.users) ∧
    (b = true → tg ∉ get_all_users (set_user_blocked db tg b reason)) := by
  have hrow : ∀ u ∈ (set_user_blocked db tg b reason).users,
      ∃ v ∈ db.users,
        u = (if v.tg_id = tg then
          { v with is_blocked := b, is_active := !b } else v) := by
    intro u hu
    unfold set_user_blocked at hu
    simp only [List.mem_map] at hu
    obtain ⟨v, hv, hvu⟩ := hu
    exact ⟨v, hv, hvu.symm⟩
  refine ⟨?_, ?_, ?_⟩
  · intro u hu htg
    obtain ⟨v, hv, hvu⟩ := hrow u hu
    by_cases hc : v.tg_id = tg
    · rw [hvu, if_pos hc]
      exact ⟨rfl, rfl⟩
    · rw [hvu, if_neg hc] at htg
      exact absurd htg hc
  · intro u hu htg
    obtain ⟨v, hv, hvu⟩ := hrow u hu
    by_cases hc : v.tg_id = tg
    · rw [hvu, if_pos hc] at htg
      exact absurd hc htg
    · rw [hvu, if_neg hc]
      exact hv
  · intro hb htg
    unfold get_all_users at htg
    simp only [List.mem_map] at htg
    obtain ⟨u, hu, hutg⟩ := htg
    obtain ⟨humem, hucond⟩ := List.mem_filter.mp hu
    obtain ⟨v, hv, hvu⟩ := hrow u humem
    by_cases hc : v.tg_id = tg
    · rw [hvu, if_pos hc] at hucond
      rw [hb] at hucond
      simp at hucond
    · rw [hvu, if_neg hc] at hutg
      exact absurd hutg hc

/-- C10 witness: blocking Telegram id 101 on the three-user store
removes it from the recipient snapshot. -/
theorem C10_block_deactivates_witness :
    (101 : Int) ∉ get_all_users (set_user_blocked dbABC 101 true ("blocked")) :=
  (C10_block_deactivates dbABC 101 true ("blocked")).2.2 rfl

end Boulumy
